/-
Verification of the thoughtkeeper request dispatcher, article store and slug
utility, shallowly embedded from `src/article.rs`, `src/request.rs`,
`src/error.rs` and `src/server.rs`.

Strings are Lean `String`s (character-level reasoning goes through `String.data`),
timestamps (`NaiveDateTime`) are modelled as `Int`, the two SQLite tables as Lean
lists in store iteration order, and each SQL statement issued by a handler is
recorded in an effect trace.
-/
import Mathlib

set_option maxRecDepth 100000

/-- The 25 code points of the Unicode `White_Space` property: the character class
behind the standard library's whitespace test used by `to_url` in `article.rs`. -/
def rustIsWhitespace (c : Char) : Bool :=
  let n := c.toNat
  decide (0x09 ≤ n ∧ n ≤ 0x0D) || n == 0x20 || n == 0x85 || n == 0xA0 ||
    n == 0x1680 || decide (0x2000 ≤ n ∧ n ≤ 0x200A) || n == 0x2028 ||
    n == 0x2029 || n == 0x202F || n == 0x205F || n == 0x3000
/-- The code point ranges of the set tested by the standard library's Unicode-aware
alphanumeric character test used by `to_url` in `article.rs`: the Unicode (14.0)
derived `Alphabetic` property (which adds the `Other_Alphabetic`, `Other_Uppercase`
and `Other_Lowercase` code points to the letter categories) together with the number
categories `Nd`, `Nl` and `No`. -/
def alphanumericRanges : List (Nat × Nat) :=
  [(48, 57), (65, 90), (97, 122), (170, 170), (178, 179), (181, 181),
   (185, 186), (188, 190), (192, 214), (216, 246), (248, 705), (710, 721),
   (736, 740), (748, 748), (750, 750), (837, 837), (880, 884), (886, 887),
   (890, 893), (895, 895), (902, 902), (904, 906), (908, 908), (910, 929),
   (931, 1013), (1015, 1153), (1162, 1327), (1329, 1366), (1369, 1369), (1376, 1416),
   (1456, 1469), (1471, 1471), (1473, 1474), (1476, 1477), (1479, 1479), (1488, 1514),
   (1519, 1522), (1552, 1562), (1568, 1623), (1625, 1641), (1646, 1747), (1749, 1756),
   (1761, 1768), (1773, 1788), (1791, 1791), (1808, 1855), (1869, 1969), (1984, 2026),
   (2036, 2037), (2042, 2042), (2048, 2071), (2074, 2092), (2112, 2136), (2144, 2154),
   (2160, 2183), (2185, 2190), (2208, 2249), (2260, 2271), (2275, 2281), (2288, 2363),
   (2365, 2380), (2382, 2384), (2389, 2403), (2406, 2415), (2417, 2435), (2437, 2444),
   (2447, 2448), (2451, 2472), (2474, 2480), (2482, 2482), (2486, 2489), (2493, 2500),
   (2503, 2504), (2507, 2508), (2510, 2510), (2519, 2519), (2524, 2525), (2527, 2531),
   (2534, 2545), (2548, 2553), (2556, 2556), (2561, 2563), (2565, 2570), (2575, 2576),
   (2579, 2600), (2602, 2608), (2610, 2611), (2613, 2614), (2616, 2617), (2622, 2626),
   (2631, 2632), (2635, 2636), (2641, 2641), (2649, 2652), (2654, 2654), (2662, 2677),
   (2689, 2691), (2693, 2701), (2703, 2705), (2707, 2728), (2730, 2736), (2738, 2739),
   (2741, 2745), (2749, 2757), (2759, 2761), (2763, 2764), (2768, 2768), (2784, 2787),
   (2790, 2799), (2809, 2812), (2817, 2819), (2821, 2828), (2831, 2832), (2835, 2856),
   (2858, 2864), (2866, 2867), (2869, 2873), (2877, 2884), (2887, 2888), (2891, 2892),
   (2902, 2903), (2908, 2909), (2911, 2915), (2918, 2927), (2929, 2935), (2946, 2947),
   (2949, 2954), (2958, 2960), (2962, 2965), (2969, 2970), (2972, 2972), (2974, 2975),
   (2979, 2980), (2984, 2986), (2990, 3001), (3006, 3010), (3014, 3016), (3018, 3020),
   (3024, 3024), (3031, 3031), (3046, 3058), (3072, 3075), (3077, 3084), (3086, 3088),
   (3090, 3112), (3114, 3129), (3133, 3140), (3142, 3144), (3146, 3148), (3157, 3158),
   (3160, 3162), (3165, 3165), (3168, 3171), (3174, 3183), (3192, 3198), (3200, 3203),
   (3205, 3212), (3214, 3216), (3218, 3240), (3242, 3251), (3253, 3257), (3261, 3268),
   (3270, 3272), (3274, 3276), (3285, 3286), (3293, 3294), (3296, 3299), (3302, 3311),
   (3313, 3314), (3328, 3340), (3342, 3344), (3346, 3386), (3389, 3396), (3398, 3400),
   (3402, 3404), (3406, 3406), (3412, 3427), (3430, 3448), (3450, 3455), (3457, 3459),
   (3461, 3478), (3482, 3505), (3507, 3515), (3517, 3517), (3520, 3526), (3535, 3540),
   (3542, 3542), (3544, 3551), (3558, 3567), (3570, 3571), (3585, 3642), (3648, 3654),
   (3661, 3661), (3664, 3673), (3713, 3714), (3716, 3716), (3718, 3722), (3724, 3747),
   (3749, 3749), (3751, 3769), (3771, 3773), (3776, 3780), (3782, 3782), (3789, 3789),
   (3792, 3801), (3804, 3807), (3840, 3840), (3872, 3891), (3904, 3911), (3913, 3948),
   (3953, 3969), (3976, 3991), (3993, 4028), (4096, 4150), (4152, 4152), (4155, 4169),
   (4176, 4253), (4256, 4293), (4295, 4295), (4301, 4301), (4304, 4346), (4348, 4680),
   (4682, 4685), (4688, 4694), (4696, 4696), (4698, 4701), (4704, 4744), (4746, 4749),
   (4752, 4784), (4786, 4789), (4792, 4798), (4800, 4800), (4802, 4805), (4808, 4822),
   (4824, 4880), (4882, 4885), (4888, 4954), (4969, 4988), (4992, 5007), (5024, 5109),
   (5112, 5117), (5121, 5740), (5743, 5759), (5761, 5786), (5792, 5866), (5870, 5880),
   (5888, 5907), (5919, 5939), (5952, 5971), (5984, 5996), (5998, 6000), (6002, 6003),
   (6016, 6067), (6070, 6088), (6103, 6103), (6108, 6108), (6112, 6121), (6128, 6137),
   (6160, 6169), (6176, 6264), (6272, 6314), (6320, 6389), (6400, 6430), (6432, 6443),
   (6448, 6456), (6470, 6509), (6512, 6516), (6528, 6571), (6576, 6601), (6608, 6618),
   (6656, 6683), (6688, 6750), (6753, 6772), (6784, 6793), (6800, 6809), (6823, 6823),
   (6847, 6848), (6860, 6862), (6912, 6963), (6965, 6979), (6981, 6988), (6992, 7001),
   (7040, 7081), (7084, 7141), (7143, 7153), (7168, 7222), (7232, 7241), (7245, 7293),
   (7296, 7304), (7312, 7354), (7357, 7359), (7401, 7404), (7406, 7411), (7413, 7414),
   (7418, 7418), (7424, 7615), (7655, 7668), (7680, 7957), (7960, 7965), (7968, 8005),
   (8008, 8013), (8016, 8023), (8025, 8025), (8027, 8027), (8029, 8029), (8031, 8061),
   (8064, 8116), (8118, 8124), (8126, 8126), (8130, 8132), (8134, 8140), (8144, 8147),
   (8150, 8155), (8160, 8172), (8178, 8180), (8182, 8188), (8304, 8305), (8308, 8313),
   (8319, 8329), (8336, 8348), (8450, 8450), (8455, 8455), (8458, 8467), (8469, 8469),
   (8473, 8477), (8484, 8484), (8486, 8486), (8488, 8488), (8490, 8493), (8495, 8505),
   (8508, 8511), (8517, 8521), (8526, 8526), (8528, 8585), (9312, 9371), (9398, 9471),
   (10102, 10131), (11264, 11492), (11499, 11502), (11506, 11507), (11517, 11517), (11520, 11557),
   (11559, 11559), (11565, 11565), (11568, 11623), (11631, 11631), (11648, 11670), (11680, 11686),
   (11688, 11694), (11696, 11702), (11704, 11710), (11712, 11718), (11720, 11726), (11728, 11734),
   (11736, 11742), (11744, 11775), (11823, 11823), (12293, 12295), (12321, 12329), (12337, 12341),
   (12344, 12348), (12353, 12438), (12445, 12447), (12449, 12538), (12540, 12543), (12549, 12591),
   (12593, 12686), (12690, 12693), (12704, 12735), (12784, 12799), (12832, 12841), (12872, 12879),
   (12881, 12895), (12928, 12937), (12977, 12991), (13312, 19903), (19968, 42124), (42192, 42237),
   (42240, 42508), (42512, 42539), (42560, 42606), (42612, 42619), (42623, 42735), (42775, 42783),
   (42786, 42888), (42891, 42954), (42960, 42961), (42963, 42963), (42965, 42969), (42994, 43013),
   (43015, 43047), (43056, 43061), (43072, 43123), (43136, 43203), (43205, 43205), (43216, 43225),
   (43250, 43255), (43259, 43259), (43261, 43306), (43312, 43346), (43360, 43388), (43392, 43442),
   (43444, 43455), (43471, 43481), (43488, 43518), (43520, 43574), (43584, 43597), (43600, 43609),
   (43616, 43638), (43642, 43710), (43712, 43712), (43714, 43714), (43739, 43741), (43744, 43759),
   (43762, 43765), (43777, 43782), (43785, 43790), (43793, 43798), (43808, 43814), (43816, 43822),
   (43824, 43866), (43868, 43881), (43888, 44010), (44016, 44025), (44032, 55203), (55216, 55238),
   (55243, 55291), (63744, 64109), (64112, 64217), (64256, 64262), (64275, 64279), (64285, 64296),
   (64298, 64310), (64312, 64316), (64318, 64318), (64320, 64321), (64323, 64324), (64326, 64433),
   (64467, 64829), (64848, 64911), (64914, 64967), (65008, 65019), (65136, 65140), (65142, 65276),
   (65296, 65305), (65313, 65338), (65345, 65370), (65382, 65470), (65474, 65479), (65482, 65487),
   (65490, 65495), (65498, 65500), (65536, 65547), (65549, 65574), (65576, 65594), (65596, 65597),
   (65599, 65613), (65616, 65629), (65664, 65786), (65799, 65843), (65856, 65912), (65930, 65931),
   (66176, 66204), (66208, 66256), (66273, 66299), (66304, 66339), (66349, 66378), (66384, 66426),
   (66432, 66461), (66464, 66499), (66504, 66511), (66513, 66517), (66560, 66717), (66720, 66729),
   (66736, 66771), (66776, 66811), (66816, 66855), (66864, 66915), (66928, 66938), (66940, 66954),
   (66956, 66962), (66964, 66965), (66967, 66977), (66979, 66993), (66995, 67001), (67003, 67004),
   (67072, 67382), (67392, 67413), (67424, 67431), (67456, 67461), (67463, 67504), (67506, 67514),
   (67584, 67589), (67592, 67592), (67594, 67637), (67639, 67640), (67644, 67644), (67647, 67669),
   (67672, 67702), (67705, 67742), (67751, 67759), (67808, 67826), (67828, 67829), (67835, 67867),
   (67872, 67897), (67968, 68023), (68028, 68047), (68050, 68099), (68101, 68102), (68108, 68115),
   (68117, 68119), (68121, 68149), (68160, 68168), (68192, 68222), (68224, 68255), (68288, 68295),
   (68297, 68324), (68331, 68335), (68352, 68405), (68416, 68437), (68440, 68466), (68472, 68497),
   (68521, 68527), (68608, 68680), (68736, 68786), (68800, 68850), (68858, 68903), (68912, 68921),
   (69216, 69246), (69248, 69289), (69291, 69292), (69296, 69297), (69376, 69415), (69424, 69445),
   (69457, 69460), (69488, 69505), (69552, 69579), (69600, 69622), (69632, 69701), (69714, 69743),
   (69745, 69749), (69762, 69816), (69826, 69826), (69840, 69864), (69872, 69881), (69888, 69938),
   (69942, 69951), (69956, 69959), (69968, 70002), (70006, 70006), (70016, 70079), (70081, 70084),
   (70094, 70106), (70108, 70108), (70113, 70132), (70144, 70161), (70163, 70196), (70199, 70199),
   (70206, 70206), (70272, 70278), (70280, 70280), (70282, 70285), (70287, 70301), (70303, 70312),
   (70320, 70376), (70384, 70393), (70400, 70403), (70405, 70412), (70415, 70416), (70419, 70440),
   (70442, 70448), (70450, 70451), (70453, 70457), (70461, 70468), (70471, 70472), (70475, 70476),
   (70480, 70480), (70487, 70487), (70493, 70499), (70656, 70721), (70723, 70725), (70727, 70730),
   (70736, 70745), (70751, 70753), (70784, 70849), (70852, 70853), (70855, 70855), (70864, 70873),
   (71040, 71093), (71096, 71102), (71128, 71133), (71168, 71230), (71232, 71232), (71236, 71236),
   (71248, 71257), (71296, 71349), (71352, 71352), (71360, 71369), (71424, 71450), (71453, 71466),
   (71472, 71483), (71488, 71494), (71680, 71736), (71840, 71922), (71935, 71942), (71945, 71945),
   (71948, 71955), (71957, 71958), (71960, 71989), (71991, 71992), (71995, 71996), (71999, 72002),
   (72016, 72025), (72096, 72103), (72106, 72151), (72154, 72159), (72161, 72161), (72163, 72164),
   (72192, 72242), (72245, 72254), (72272, 72343), (72349, 72349), (72368, 72440), (72704, 72712),
   (72714, 72758), (72760, 72766), (72768, 72768), (72784, 72812), (72818, 72847), (72850, 72871),
   (72873, 72886), (72960, 72966), (72968, 72969), (72971, 73014), (73018, 73018), (73020, 73021),
   (73023, 73025), (73027, 73027), (73030, 73031), (73040, 73049), (73056, 73061), (73063, 73064),
   (73066, 73102), (73104, 73105), (73107, 73110), (73112, 73112), (73120, 73129), (73440, 73462),
   (73648, 73648), (73664, 73684), (73728, 74649), (74752, 74862), (74880, 75075), (77712, 77808),
   (77824, 78894), (82944, 83526), (92160, 92728), (92736, 92766), (92768, 92777), (92784, 92862),
   (92864, 92873), (92880, 92909), (92928, 92975), (92992, 92995), (93008, 93017), (93019, 93025),
   (93027, 93047), (93053, 93071), (93760, 93846), (93952, 94026), (94031, 94087), (94095, 94111),
   (94176, 94177), (94179, 94179), (94192, 94193), (94208, 100343), (100352, 101589), (101632, 101640),
   (110576, 110579), (110581, 110587), (110589, 110590), (110592, 110882), (110928, 110930), (110948, 110951),
   (110960, 111355), (113664, 113770), (113776, 113788), (113792, 113800), (113808, 113817), (113822, 113822),
   (119520, 119539), (119648, 119672), (119808, 119892), (119894, 119964), (119966, 119967), (119970, 119970),
   (119973, 119974), (119977, 119980), (119982, 119993), (119995, 119995), (119997, 120003), (120005, 120069),
   (120071, 120074), (120077, 120084), (120086, 120092), (120094, 120121), (120123, 120126), (120128, 120132),
   (120134, 120134), (120138, 120144), (120146, 120485), (120488, 120512), (120514, 120538), (120540, 120570),
   (120572, 120596), (120598, 120628), (120630, 120654), (120656, 120686), (120688, 120712), (120714, 120744),
   (120746, 120770), (120772, 120779), (120782, 120831), (122624, 122654), (122880, 122886), (122888, 122904),
   (122907, 122913), (122915, 122916), (122918, 122922), (123136, 123180), (123191, 123197), (123200, 123209),
   (123214, 123214), (123536, 123565), (123584, 123627), (123632, 123641), (124896, 124902), (124904, 124907),
   (124909, 124910), (124912, 124926), (124928, 125124), (125127, 125135), (125184, 125251), (125255, 125255),
   (125259, 125259), (125264, 125273), (126065, 126123), (126125, 126127), (126129, 126132), (126209, 126253),
   (126255, 126269), (126464, 126467), (126469, 126495), (126497, 126498), (126500, 126500), (126503, 126503),
   (126505, 126514), (126516, 126519), (126521, 126521), (126523, 126523), (126530, 126530), (126535, 126535),
   (126537, 126537), (126539, 126539), (126541, 126543), (126545, 126546), (126548, 126548), (126551, 126551),
   (126553, 126553), (126555, 126555), (126557, 126557), (126559, 126559), (126561, 126562), (126564, 126564),
   (126567, 126570), (126572, 126578), (126580, 126583), (126585, 126588), (126590, 126590), (126592, 126601),
   (126603, 126619), (126625, 126627), (126629, 126633), (126635, 126651), (127232, 127244), (127280, 127305),
   (127312, 127337), (127344, 127369), (130032, 130041), (131072, 173791), (173824, 177976), (177984, 178205),
   (178208, 183969), (183984, 191456), (194560, 195101), (196608, 201546)]

/-- Unicode-aware alphanumeric test (`char::is_alphanumeric` in `article.rs`):
membership in one of the code point ranges above, i.e. the derived `Alphabetic`
property or a number category. -/
def rustIsAlphanumeric (c : Char) : Bool :=
  alphanumericRanges.any (fun p => decide (p.1 ≤ c.toNat ∧ c.toNat ≤ p.2))

/-- The characters of the Rust literal string `"-._~"`; `article.rs` tests
membership with `"-._~".contains(c)`. -/
def slugLiteralSet : List Char := ['-', '.', '_', '~']

/-- The body of the `filter_map` closure in `to_url` (`article.rs` lines 82-90):
whitespace maps to `'_'`, characters that are in `"-._~"` or alphanumeric pass
through unchanged, every other character is dropped (`None`). -/
def to_url_char (c : Char) : Option Char :=
  if rustIsWhitespace c then some '_'
  else if slugLiteralSet.contains c || rustIsAlphanumeric c then some c
  else none

/-- `to_url` (`article.rs` lines 79-92): iterate over the title's characters and
`filter_map` them with the classifier above, collecting the result. -/
def to_url (title : String) : String :=
  ⟨title.data.filterMap to_url_char⟩

/-- An article row (`article.rs` lines 15-21): `id TEXT PRIMARY KEY`, `title`,
`content`, and the `published` timestamp (`NaiveDateTime`, modelled as `Int`). -/
structure Article where
  id : String
  title : String
  content : String
  published : Int
deriving DecidableEq, Repr

/-- `Article::url` (`article.rs` lines 41-43): the permalink slug derived from the
title. -/
def Article.url (a : Article) : String := to_url a.title

/-- `Article::new` (`article.rs` lines 24-31). `Uuid::new_v4()` and `Utc::now()`
are environment inputs of the embedding, passed in as `freshId` and `now`. -/
def Article.new (freshId : String) (now : Int) (title content : String) : Article :=
  { id := freshId, title := title, content := content, published := now }

/-- A secrets row (`secrets` table: `id INTEGER PRIMARY KEY, secret TEXT,
description TEXT NULL`). -/
structure Secret where
  id : Int
  secret : String
  description : Option String
deriving DecidableEq, Repr

/-- The SQLite database: the `articles` and `secrets` tables, each as its list of
rows in store iteration order. -/
structure DB where
  articles : List Article
  secrets : List Secret
deriving DecidableEq, Repr

/-- The operation part of a request envelope (`request.rs` lines 13-30). -/
inductive InnerRequest where
  | CreateArticle (title content : String)
  | GetArticle (url : String)
  | YankArticle (id : String)
  | UpdateArticle (id : String) (title content : Option String)
  | ListArticles
deriving DecidableEq, Repr

/-- The request envelope (`request.rs` lines 7-10). -/
structure Request where
  secret : String
  request : InnerRequest
deriving DecidableEq, Repr

/-- The metadata projection (`request.rs` lines 33-37). -/
structure ArticleMetadata where
  id : String
  title : String
  published : Int
deriving DecidableEq, Repr

/-- The response union on the wire (`request.rs` lines 40-47), with all six
variants including `Untyped`. -/
inductive Response where
  | Article (a : Article)
  | ArticleId (id : String)
  | ArticleMetadata (l : List ArticleMetadata)
  | Untyped (kind content : String)
  | Ok
  | Error (msg : String)
deriving DecidableEq, Repr

/-- The errors a handler propagates with `?` (`miette` diagnostics carried by
`TkError`, `error.rs` lines 4-14). `noArticleWithUrl` is the
`miette!("No article with url {url} found")` of the GetArticle arm; `rowNotFound`
is a `fetch_one` miss. -/
inductive TkError where
  | noArticleWithUrl (url : String)
  | rowNotFound
deriving DecidableEq, Repr

/-- The diagnostic message carried by the error. -/
def TkError.message : TkError → String
  | .noArticleWithUrl url => "No article with url " ++ url ++ " found"
  | .rowNotFound => "no rows returned by a query that expected to return at least one row"

/-- `impl IntoResponse for TkError` (`error.rs` lines 6-14): status 500 with the
body `Internal Server Error: {diagnostic}` — a generic internal error, not a typed
`Response`. -/
def TkError.into_response (e : TkError) : Nat × String :=
  (500, "Internal Server Error: " ++ e.message)

/-- One SQL statement issued against the database, recorded in the handler's
effect trace. `selectSecret` targets the `secrets` table; every other operation
targets the `articles` table. -/
inductive StoreOp where
  | selectSecret (secret : String)
  | insertArticle (a : Article)
  | selectIdTitle
  | selectById (id : String)
  | deleteById (id : String)
  | selectMetadata
  | updateTitleContent (id title content : String)
  | updateContent (id content : String)
  | updateTitle (id title : String)
deriving DecidableEq, Repr

/-- What the API handler hands to axum: either `Json` of a typed `Response`
value, or — in the GetArticle hit arm (`server.rs` line 95) — `Json` of the
`String` produced by `serde_json::to_string(&article)`, i.e. the row serialized
into a raw JSON string rather than a `Response` variant. -/
inductive ApiOutput where
  | response (r : Response)
  | serializedArticle (a : Article)
deriving DecidableEq, Repr

instance {ε α : Type} [DecidableEq ε] [DecidableEq α] : DecidableEq (Except ε α) := fun a b =>
  match a, b with
  | .ok x, .ok y =>
      if h : x = y then .isTrue (congrArg Except.ok h)
      else .isFalse (fun hh => h (Except.ok.inj hh))
  | .error x, .error y =>
      if h : x = y then .isTrue (congrArg Except.error h)
      else .isFalse (fun hh => h (Except.error.inj hh))
  | .ok _, .error _ => .isFalse (fun hh => Except.noConfusion hh)
  | .error _, .ok _ => .isFalse (fun hh => Except.noConfusion hh)

/-- Result of one call to the API handler: the database afterwards, the trace of
SQL statements issued, and either an output or a propagated `TkError`. -/
structure HandleResult where
  db : DB
  trace : List StoreOp
  result : Except TkError ApiOutput
deriving DecidableEq, Repr

/-- `is_secret_valid` (`server.rs` lines 331-339):
`SELECT id FROM secrets WHERE secret = ?` with `fetch_optional(..).is_some()` —
a case-sensitive exact-match existence check against the secrets table. -/
def is_secret_valid (secret : String) (db : DB) : Bool :=
  (db.secrets.find? (fun r => r.secret == secret)).isSome

/-- `handle_api_request` (`server.rs` lines 47-155). The secret is validated
first; on failure the typed `Error("Invalid secret")` response is returned at
once. Otherwise the envelope's operation is dispatched:
* `CreateArticle`: build `Article::new`, `INSERT` it, respond `ArticleId`;
* `GetArticle{url}`: `SELECT id, title` over all rows, take the first whose
  recomputed slug equals `url` (else propagate the not-found diagnostic with
  `?`), `SELECT * WHERE id = ?` on that id, respond with the serialized row;
* `YankArticle{id}`: `DELETE WHERE id = ?`, respond `Ok`;
* `ListArticles`: `SELECT id, title, published`, respond `ArticleMetadata`;
* `UpdateArticle{id, title?, content?}`: one `UPDATE` statement rewriting
  exactly the supplied fields, or nothing when none is supplied; respond `Ok`.
`freshId` and `now` stand for `Uuid::new_v4()` and `Utc::now()`. -/
def handle_api_request (db : DB) (freshId : String) (now : Int)
    (req : Request) : HandleResult :=
  if ¬ is_secret_valid req.secret db then
    ⟨db, [.selectSecret req.secret], .ok (.response (.Error "Invalid secret"))⟩
  else
    match req.request with
    | .CreateArticle title content =>
        let article := Article.new freshId now title content
        ⟨{ db with articles := db.articles ++ [article] },
         [.selectSecret req.secret, .insertArticle article],
         .ok (.response (.ArticleId article.id))⟩
    | .GetArticle url =>
        match db.articles.find? (fun r => to_url r.title == url) with
        | none =>
            ⟨db, [.selectSecret req.secret, .selectIdTitle],
             .error (.noArticleWithUrl url)⟩
        | some r =>
            match db.articles.find? (fun a => a.id == r.id) with
            | some article =>
                ⟨db, [.selectSecret req.secret, .selectIdTitle, .selectById r.id],
                 .ok (.serializedArticle article)⟩
            | none =>
                ⟨db, [.selectSecret req.secret, .selectIdTitle, .selectById r.id],
                 .error .rowNotFound⟩
    | .YankArticle id =>
        ⟨{ db with articles := db.articles.filter (fun a => a.id != id) },
         [.selectSecret req.secret, .deleteById id],
         .ok (.response .Ok)⟩
    | .ListArticles =>
        ⟨db, [.selectSecret req.secret, .selectMetadata],
         .ok (.response (.ArticleMetadata (db.articles.map
            (fun r => ⟨r.id, r.title, r.published⟩))))⟩
    | .UpdateArticle id title content =>
        match title, content with
        | some t, some c =>
            ⟨{ db with articles := db.articles.map (fun a =>
                  if a.id == id then { a with title := t, content := c } else a) },
             [.selectSecret req.secret, .updateTitleContent id t c],
             .ok (.response .Ok)⟩
        | none, some c =>
            ⟨{ db with articles := db.articles.map (fun a =>
                  if a.id == id then { a with content := c } else a) },
             [.selectSecret req.secret, .updateContent id c],
             .ok (.response .Ok)⟩
        | some t, none =>
            ⟨{ db with articles := db.articles.map (fun a =>
                  if a.id == id then { a with title := t } else a) },
             [.selectSecret req.secret, .updateTitle id t],
             .ok (.response .Ok)⟩
        | none, none =>
            ⟨db, [.selectSecret req.secret], .ok (.response .Ok)⟩

/-- The store read `SELECT * FROM articles WHERE id = ?` with `fetch_one`:
the first row with the given id, or `none` (NotFound). -/
def getById (db : DB) (id : String) : Option Article :=
  db.articles.find? (fun a => a.id == id)

/-- What the public permalink route renders. `panicked` models the `.unwrap()`
on the inner fetch in `get_article`. -/
inductive PageOutput where
  | articlePage (a : Article)
  | errorPage
  | panicked
deriving DecidableEq, Repr

/-- `get_article` (`server.rs` lines 157-191), the `/article/:id` permalink
route: load all `(id, title)` pairs, scan for the first whose recomputed slug
equals the path, fetch that row by id and render it; on a failed scan render the
not-found page. -/
def get_article (db : DB) (url : String) : PageOutput :=
  match db.articles.find? (fun r => to_url r.title == url) with
  | some r =>
      match db.articles.find? (fun a => a.id == r.id) with
      | some article => .articlePage article
      | none => .panicked
  | none => .errorPage

/-- `SELECT * FROM articles ORDER BY published DESC` (`server.rs` lines 202 and
222): the article rows sorted newest-first. -/
def listAllOrderedByPublishedDesc (db : DB) : List Article :=
  db.articles.insertionSort (fun a b => b.published ≤ a.published)

/-- The article list rendered by `index` (`server.rs` lines 200-212). -/
def index (db : DB) : List Article := listAllOrderedByPublishedDesc db

/-- The article list serialized by `rss_feed` (`server.rs` lines 220-237). -/
def rss_feed (db : DB) : List Article := listAllOrderedByPublishedDesc db

/-- The character set claimed by the specification's sentence
"`toSlug(t)` contains only characters from `[A-Za-z0-9._~]` or `_`", taken at
its words: ASCII letters, ASCII digits, `.`, `_` and `~`. (Definition follows
the spec's words, for comparison against `to_url`.) -/
def c2AllowedChar (c : Char) : Bool :=
  c.isAlpha || c.isDigit || c == '.' || c == '_' || c == '~'

/-! Fixtures used by witnesses and counterexamples. -/

def sampleArticle : Article := ⟨"a1", "Hello, World!", "body", 5⟩

def sampleSecret : Secret := ⟨1, "s3cr3t", none⟩

def sampleDB : DB := ⟨[sampleArticle], [sampleSecret]⟩

/-! Helper lemmas. -/

/-- `find?` on a list that splits into a non-matching front, a matching element
and an arbitrary tail returns that element: the first match in iteration order. -/
theorem find?_append_first {α : Type} (p : α → Bool) (xs ys : List α) (a : α)
    (hxs : ∀ x ∈ xs, p x = false) (ha : p a = true) :
    (xs ++ a :: ys).find? p = some a := by
  induction xs with
  | nil => simp [List.find?_cons, ha]
  | cons x xs ih =>
      have hx := hxs x (List.mem_cons_self x xs)
      simp only [List.cons_append, List.find?_cons, hx]
      exact ih (fun y hy => hxs y (List.mem_cons_of_mem x hy))

/-- When the stored ids are pairwise distinct (the `id TEXT PRIMARY KEY`
schema invariant), fetching a member row by its own id returns that row. -/
theorem find?_id_of_nodup (l : List Article) (r : Article)
    (hnodup : (l.map (fun x => x.id)).Nodup) (hr : r ∈ l) :
    l.find? (fun a => a.id == r.id) = some r := by
  induction l with
  | nil => cases hr
  | cons x xs ih =>
      rcases List.mem_cons.mp hr with h | h
      · subst h
        simp [List.find?_cons]
      · have hne : x.id ≠ r.id := by
          intro hcontra
          have : r.id ∈ xs.map (fun y => y.id) :=
            List.mem_map.mpr ⟨r, h, rfl⟩
          rw [← hcontra] at this
          exact (List.nodup_cons.mp hnodup).1 this
        have hcond : (x.id == r.id) = false := beq_eq_false_iff_ne.mpr hne
        simp only [List.find?_cons, hcond]
        exact ih (List.nodup_cons.mp hnodup).2 h

/-- Mapping a per-row rewrite that keeps `published` over the table keeps the
column of `published` values. -/
theorem map_published_of_update (l : List Article) (f : Article → Article)
    (hf : ∀ a, (f a).published = a.published) :
    (l.map f).map (fun a => a.published) = l.map (fun a => a.published) := by
  induction l with
  | nil => rfl
  | cons a l ih => simp [hf a, ih]

/-- C1 — For every request envelope whose secret does not match any row in the
secrets table, the dispatcher returns `Error("Invalid secret")` immediately: the
only SQL statement issued is the secret lookup (no article-store operation is
attempted) and the database, in particular the article store, is unchanged,
regardless of which operation the envelope carries. -/
theorem invalid_secret_rejected (db : DB) (freshId : String) (now : Int)
    (req : Request) (h : is_secret_valid req.secret db = false) :
    handle_api_request db freshId now req =
      ⟨db, [.selectSecret req.secret], .ok (.response (.Error "Invalid secret"))⟩ := by
  simp [handle_api_request, h]

theorem invalid_secret_rejected_witness :
    is_secret_valid "s" (⟨[sampleArticle], []⟩ : DB) = false ∧
    handle_api_request ⟨[sampleArticle], []⟩ "f" 0 ⟨"s", .YankArticle "a1"⟩ =
      ⟨⟨[sampleArticle], []⟩, [.selectSecret "s"],
       .ok (.response (.Error "Invalid secret"))⟩ :=
  ⟨by decide, invalid_secret_rejected ⟨[sampleArticle], []⟩ "f" 0
      ⟨"s", .YankArticle "a1"⟩ (by decide)⟩

/-- Does a handler result carry the `Untyped` response variant? -/
def isUntypedOutput : Except TkError ApiOutput → Bool
  | .ok (.response (.Untyped _ _)) => true
  | _ => false

/-- C9 — For every decoded request envelope (and every environment input), the
dispatcher's response is never the `Untyped { kind, content }` variant: no arm
of `handle_api_request` constructs it. -/
theorem dispatcher_never_untyped (db : DB) (freshId : String) (now : Int)
    (req : Request) :
    isUntypedOutput (handle_api_request db freshId now req).result = false := by
  obtain ⟨s, r⟩ := req
  by_cases hv : is_secret_valid s db = true
  · cases r with
    | CreateArticle title content => simp [handle_api_request, hv, isUntypedOutput]
    | GetArticle url =>
        rcases h1 : (db.articles.find? (fun t => to_url t.title == url)) with _ | t
        · simp [handle_api_request, hv, h1, isUntypedOutput]
        · rcases h2 : (db.articles.find? (fun a => a.id == t.id)) with _ | b <;>
            simp [handle_api_request, hv, h1, h2, isUntypedOutput]
    | YankArticle id => simp [handle_api_request, hv, isUntypedOutput]
    | UpdateArticle id title content =>
        rcases title with _ | t <;> rcases content with _ | c <;>
          simp [handle_api_request, hv, isUntypedOutput]
    | ListArticles => simp [handle_api_request, hv, isUntypedOutput]
  · simp [handle_api_request, hv, isUntypedOutput]

/-- Characters the slug classifier emits are fixed points of the classifier:
`'_'` is non-whitespace and in `"-._~"`, and a passed-through character already
failed the whitespace test and passed the passthrough test. -/
theorem to_url_char_fixed {c c' : Char} (h : to_url_char c = some c') :
    to_url_char c' = some c' := by
  rw [to_url_char] at h
  by_cases hw : rustIsWhitespace c = true
  · rw [if_pos hw] at h
    have hc : c' = '_' := (Option.some.inj h).symm
    subst hc
    decide
  · rw [if_neg hw] at h
    by_cases hp : (slugLiteralSet.contains c || rustIsAlphanumeric c) = true
    · rw [if_pos hp] at h
      have hc : c' = c := (Option.some.inj h).symm
      subst hc
      rw [to_url_char, if_neg hw, if_pos hp]
    · rw [if_neg hp] at h
      exact Option.noConfusion h

/-- One pass of the slug `filter_map` already produces a fixed point of a second
pass. -/
theorem filterMap_to_url_char_idem (l : List Char) :
    (l.filterMap to_url_char).filterMap to_url_char = l.filterMap to_url_char := by
  induction l with
  | nil => rfl
  | cons a l ih =>
      cases h : to_url_char a with
      | none => simpa [List.filterMap_cons, h] using ih
      | some b => simp [List.filterMap_cons, h, to_url_char_fixed h, ih]

/-- C8 — `to_url` is a plain Lean function of its input (deterministic, pure and
total by construction), and it is idempotent: re-applying it to its own output
changes nothing, because every emitted character passes the second pass
unchanged. -/
theorem to_url_idempotent (t : String) : to_url (to_url t) = to_url t := by
  simp only [to_url]
  exact congrArg String.mk (filterMap_to_url_char_idem t.data)

/-- C2 (amended) — every character of `to_url t` is either `'_'` (the image of
whitespace) or a character of the literal set `"-._~"` or a Unicode-alphanumeric
character passed through unchanged; and `to_url "Hello, World!" = "Hello_World"`.
(The originally claimed character set `[A-Za-z0-9._~] ∪ {_}` is too small: it
omits `-`, and Rust's alphanumeric test is Unicode-aware, so non-ASCII letters
such as `é` also pass through — see the counterexample.) -/
theorem to_url_charset :
    (∀ t : String, ∀ c ∈ (to_url t).data,
        c = '_' ∨ slugLiteralSet.contains c = true ∨ rustIsAlphanumeric c = true) ∧
    to_url "Hello, World!" = "Hello_World" := by
  constructor
  · intro t c hc
    simp only [to_url] at hc
    obtain ⟨a, -, ha⟩ := List.mem_filterMap.mp hc
    rw [to_url_char] at ha
    by_cases hw : rustIsWhitespace a = true
    · rw [if_pos hw] at ha
      exact Or.inl (Option.some.inj ha).symm
    · rw [if_neg hw] at ha
      by_cases hp : (slugLiteralSet.contains a || rustIsAlphanumeric a) = true
      · rw [if_pos hp] at ha
        have hac : a = c := Option.some.inj ha
        rw [← hac]
        cases hcb : slugLiteralSet.contains a with
        | true => exact Or.inr (Or.inl rfl)
        | false =>
            rw [hcb, Bool.false_or] at hp
            exact Or.inr (Or.inr hp)
      · rw [if_neg hp] at ha
        exact Option.noConfusion ha
  · decide

theorem to_url_charset_witness :
    'x' ∈ (to_url "x!").data ∧
      ('x' = '_' ∨ slugLiteralSet.contains 'x' = true ∨ rustIsAlphanumeric 'x' = true) :=
  ⟨by decide, to_url_charset.1 "x!" 'x' (by decide)⟩

/-- C2 counterexample — `to_url "a-é" = "a-é"`: the hyphen passes through but is
outside the claimed set `[A-Za-z0-9._~] ∪ {_}`, and the non-ASCII letter `é` is
alphanumeric for Rust and passes through rather than being dropped, so the
output is not contained in the claimed set. The test is the derived `Alphabetic`
property plus the number categories, so even the non-letter combining mark
U+0902 (DEVANAGARI SIGN ANUSVARA, an `Other_Alphabetic` code point) is kept. -/
theorem to_url_charset_counterexample :
    to_url "a-é" = "a-é" ∧
    (to_url "a-é").data.all c2AllowedChar = false ∧
    c2AllowedChar '-' = false ∧ c2AllowedChar 'é' = false ∧
    to_url "aंb" = "aंb" ∧ c2AllowedChar 'ं' = false := by
  refine ⟨by decide, by decide, by decide, by decide, by decide, by decide⟩

/-- C3 — UpdateArticle is a partial update: with only a title the matching row's
title alone is rewritten (content and published kept per row), with only a
content the content alone is rewritten, with both fields a single combined
`UPDATE` statement rewrites both (one write in the trace), with neither the
database is untouched and the handler still answers `Ok` (a no-op, not an
error); in every case the `published` column is unchanged. -/
theorem update_article_frame (db : DB) (freshId : String) (now : Int)
    (s id t c : String) (hv : is_secret_valid s db = true) :
    (handle_api_request db freshId now ⟨s, .UpdateArticle id (some t) none⟩ =
      ⟨⟨db.articles.map (fun a => if a.id == id then { a with title := t } else a),
        db.secrets⟩,
       [.selectSecret s, .updateTitle id t], .ok (.response .Ok)⟩) ∧
    (handle_api_request db freshId now ⟨s, .UpdateArticle id none (some c)⟩ =
      ⟨⟨db.articles.map (fun a => if a.id == id then { a with content := c } else a),
        db.secrets⟩,
       [.selectSecret s, .updateContent id c], .ok (.response .Ok)⟩) ∧
    (handle_api_request db freshId now ⟨s, .UpdateArticle id (some t) (some c)⟩ =
      ⟨⟨db.articles.map (fun a =>
            if a.id == id then { a with title := t, content := c } else a),
        db.secrets⟩,
       [.selectSecret s, .updateTitleContent id t c], .ok (.response .Ok)⟩) ∧
    (handle_api_request db freshId now ⟨s, .UpdateArticle id none none⟩ =
      ⟨db, [.selectSecret s], .ok (.response .Ok)⟩) ∧
    (∀ ot oc : Option String,
      ((handle_api_request db freshId now ⟨s, .UpdateArticle id ot oc⟩).db.articles.map
          (fun a => a.published)) = db.articles.map (fun a => a.published)) := by
  refine ⟨?_, ?_, ?_, ?_, ?_⟩
  · simp [handle_api_request, hv]
  · simp [handle_api_request, hv]
  · simp [handle_api_request, hv]
  · simp [handle_api_request, hv]
  · intro ot oc
    rcases ot with _ | t' <;> rcases oc with _ | c' <;>
      simp only [handle_api_request, hv, if_neg, not_true_eq_false, ite_false] <;>
      first
        | rfl
        | (exact map_published_of_update _ _ (fun a => by
            by_cases h : (a.id == id) = true <;> simp [h]))

theorem update_article_frame_witness :
    is_secret_valid "s3cr3t" sampleDB = true ∧
    handle_api_request sampleDB "f" 0 ⟨"s3cr3t", .UpdateArticle "a1" none none⟩ =
      ⟨sampleDB, [.selectSecret "s3cr3t"], .ok (.response .Ok)⟩ :=
  ⟨by decide,
   (update_article_frame sampleDB "f" 0 "s3cr3t" "a1" "T" "C" (by decide)).2.2.2.1⟩

/-- C5 — YankArticle deletion is idempotent and unconditional: the handler
answers `Ok` and issues the one `DELETE` statement whatever the store contains,
deleting twice in a row gives `Ok` twice and the second pass leaves the store
exactly as after the first, deleting an id absent from the store succeeds
silently with the store unchanged, and after a delete `getById` on that id is
`none` (NotFound). -/
theorem yank_idempotent (db : DB) (freshId : String) (now : Int) (s id : String)
    (hv : is_secret_valid s db = true) :
    (handle_api_request db freshId now ⟨s, .YankArticle id⟩ =
      ⟨⟨db.articles.filter (fun a => a.id != id), db.secrets⟩,
       [.selectSecret s, .deleteById id], .ok (.response .Ok)⟩) ∧
    (handle_api_request (handle_api_request db freshId now ⟨s, .YankArticle id⟩).db
        freshId now ⟨s, .YankArticle id⟩ =
      ⟨(handle_api_request db freshId now ⟨s, .YankArticle id⟩).db,
       [.selectSecret s, .deleteById id], .ok (.response .Ok)⟩) ∧
    ((∀ a ∈ db.articles, a.id ≠ id) →
      (handle_api_request db freshId now ⟨s, .YankArticle id⟩).db = db) ∧
    (getById (handle_api_request db freshId now ⟨s, .YankArticle id⟩).db id = none) := by
  obtain ⟨arts, secs⟩ := db
  have hfix : (arts.filter (fun a => a.id != id)).filter (fun a => a.id != id) =
      arts.filter (fun a => a.id != id) :=
    List.filter_eq_self.mpr (fun a ha => (List.mem_filter.mp ha).2)
  refine ⟨?_, ?_, ?_, ?_⟩
  · simp [handle_api_request, hv]
  · have hv2 : is_secret_valid s ⟨arts.filter (fun a => a.id != id), secs⟩ = true := hv
    simp only [handle_api_request, hv, hv2, not_true_eq_false, if_false]
    simp [hfix]
  · intro habs
    have : arts.filter (fun a => a.id != id) = arts :=
      List.filter_eq_self.mpr (fun a ha => bne_iff_ne.mpr (habs a ha))
    simp [handle_api_request, hv, this]
  · simp only [handle_api_request, hv, not_true_eq_false, if_false]
    simp only [getById]
    rw [List.find?_eq_none]
    intro x hx
    have := (List.mem_filter.mp hx).2
    simpa using bne_iff_ne.mp this

theorem yank_idempotent_witness :
    is_secret_valid "s3cr3t" sampleDB = true ∧
    getById (handle_api_request sampleDB "f" 0 ⟨"s3cr3t", .YankArticle "a1"⟩).db "a1" =
      none :=
  ⟨by decide, (yank_idempotent sampleDB "f" 0 "s3cr3t" "a1" (by decide)).2.2.2⟩

/-- C7 — With three stored articles whose published timestamps satisfy
T1 < T2 < T3, the ordered read path `SELECT * FROM articles ORDER BY published
DESC` — the one feeding both the index page and the RSS feed — returns the full
rows strictly newest-first: T3, T2, T1. -/
theorem listing_newest_first (a1 a2 a3 : Article) (secs : List Secret)
    (h12 : a1.published < a2.published) (h23 : a2.published < a3.published) :
    listAllOrderedByPublishedDesc ⟨[a1, a2, a3], secs⟩ = [a3, a2, a1] ∧
    index ⟨[a1, a2, a3], secs⟩ = [a3, a2, a1] ∧
    rss_feed ⟨[a1, a2, a3], secs⟩ = [a3, a2, a1] := by
  have n23 : ¬ a3.published ≤ a2.published := not_le.mpr h23
  have n13 : ¬ a3.published ≤ a1.published := not_le.mpr (h12.trans h23)
  have n12 : ¬ a2.published ≤ a1.published := not_le.mpr h12
  refine ⟨?_, ?_, ?_⟩ <;>
    simp [listAllOrderedByPublishedDesc, index, rss_feed, List.insertionSort,
          List.orderedInsert, n23, n13, n12]

theorem listing_newest_first_witness :
    ((1 : Int) < 2 ∧ (2 : Int) < 3) ∧
    listAllOrderedByPublishedDesc
        ⟨[⟨"i1", "t1", "c1", 1⟩, ⟨"i2", "t2", "c2", 2⟩, ⟨"i3", "t3", "c3", 3⟩], []⟩ =
      [⟨"i3", "t3", "c3", 3⟩, ⟨"i2", "t2", "c2", 2⟩, ⟨"i1", "t1", "c1", 1⟩] :=
  ⟨⟨by decide, by decide⟩,
   (listing_newest_first ⟨"i1", "t1", "c1", 1⟩ ⟨"i2", "t2", "c2", 2⟩
      ⟨"i3", "t3", "c3", 3⟩ [] (by decide) (by decide)).1⟩

/-- C4 (amended) — For a GetArticle request carrying a valid secret: on a miss
(no stored title's recomputed slug equals the url) the handler propagates the
not-found diagnostic with `?`, which `TkError` surfaces as a generic 500
`Internal Server Error`, not as a typed `Error` response; on a hit the handler
fetches the resolved id and responds with the row serialized by
`serde_json::to_string` into a raw JSON string — not with the typed
`Response::Article` variant (see the counterexample). -/
theorem get_article_api_dispatch (db : DB) (freshId : String) (now : Int)
    (s url : String) (hv : is_secret_valid s db = true) :
    ((db.articles.find? (fun r => to_url r.title == url) = none) →
       handle_api_request db freshId now ⟨s, .GetArticle url⟩ =
         ⟨db, [.selectSecret s, .selectIdTitle], .error (.noArticleWithUrl url)⟩) ∧
    ((TkError.noArticleWithUrl url).into_response =
       (500, "Internal Server Error: " ++ ("No article with url " ++ url ++ " found"))) ∧
    (∀ r, db.articles.find? (fun x => to_url x.title == url) = some r →
       ∃ b, db.articles.find? (fun a => a.id == r.id) = some b ∧
         handle_api_request db freshId now ⟨s, .GetArticle url⟩ =
           ⟨db, [.selectSecret s, .selectIdTitle, .selectById r.id],
            .ok (.serializedArticle b)⟩) := by
  refine ⟨?_, rfl, ?_⟩
  · intro hmiss
    simp [handle_api_request, hv, hmiss]
  · intro r hr
    have hmem : r ∈ db.articles := List.mem_of_find?_eq_some hr
    have hsome : (db.articles.find? (fun a => a.id == r.id)).isSome :=
      List.find?_isSome.mpr ⟨r, hmem, beq_self_eq_true r.id⟩
    obtain ⟨b, hb⟩ := Option.isSome_iff_exists.mp hsome
    exact ⟨b, hb, by simp [handle_api_request, hv, hr, hb]⟩

theorem get_article_api_dispatch_witness :
    is_secret_valid "s3cr3t" (⟨[], [sampleSecret]⟩ : DB) = true ∧
    (([] : List Article).find? (fun r => to_url r.title == "nope") = none) ∧
    handle_api_request ⟨[], [sampleSecret]⟩ "f" 0 ⟨"s3cr3t", .GetArticle "nope"⟩ =
      ⟨⟨[], [sampleSecret]⟩, [.selectSecret "s3cr3t", .selectIdTitle],
       .error (.noArticleWithUrl "nope")⟩ :=
  ⟨by decide, by decide,
   (get_article_api_dispatch ⟨[], [sampleSecret]⟩ "f" 0 "s3cr3t" "nope"
      (by decide)).1 (by decide)⟩

/-- Is a handler output `Json` of a typed `Response` value? -/
def isTypedResponse : Except TkError ApiOutput → Bool
  | .ok (.response _) => true
  | _ => false

/-- C4 counterexample — with the sample store and a valid secret, a GetArticle
hit answers with the row serialized into a raw JSON string
(`Json(serde_json::to_string(&article))`, `server.rs` line 95): the output is a
`serializedArticle`, not any typed `Response` value, so in particular not the
typed `Article(row)` response the claim states. -/
theorem get_article_typed_response_counterexample :
    (handle_api_request sampleDB "f" 0 ⟨"s3cr3t", .GetArticle "Hello_World"⟩).result =
      .ok (.serializedArticle sampleArticle) ∧
    isTypedResponse
      (handle_api_request sampleDB "f" 0 ⟨"s3cr3t", .GetArticle "Hello_World"⟩).result =
      false := by
  refine ⟨by decide, by decide⟩

/-- C6 — GetArticle by slug scans the stored `(id, title)` pairs in store
iteration order, selects the first whose recomputed slug equals the argument
(`xs`, the rows before it, do not match; the rows `ys` after it are arbitrary
and may contain colliding titles), then fetches that row by id — so with the
primary-key fact that the ids of the preceding rows differ, the handler answers
with exactly that first store-order match. -/
theorem get_by_slug_first_match (xs ys : List Article) (a : Article)
    (secs : List Secret) (freshId : String) (now : Int) (s url : String)
    (hv : is_secret_valid s ⟨xs ++ a :: ys, secs⟩ = true)
    (hmatch : to_url a.title = url)
    (hxs : ∀ x ∈ xs, to_url x.title ≠ url)
    (hid : ∀ x ∈ xs, x.id ≠ a.id) :
    handle_api_request ⟨xs ++ a :: ys, secs⟩ freshId now ⟨s, .GetArticle url⟩ =
      ⟨⟨xs ++ a :: ys, secs⟩,
       [.selectSecret s, .selectIdTitle, .selectById a.id],
       .ok (.serializedArticle a)⟩ := by
  have hfind1 : (xs ++ a :: ys).find? (fun r => to_url r.title == url) = some a :=
    find?_append_first _ xs ys a
      (fun x hx => beq_eq_false_iff_ne.mpr (hxs x hx))
      (beq_iff_eq.mpr hmatch)
  have hfind2 : (xs ++ a :: ys).find? (fun r => r.id == a.id) = some a :=
    find?_append_first _ xs ys a
      (fun x hx => beq_eq_false_iff_ne.mpr (hid x hx))
      (beq_self_eq_true a.id)
  simp [handle_api_request, hv, hfind1, hfind2]

theorem get_by_slug_first_match_witness :
    (is_secret_valid "s3cr3t"
        (⟨[⟨"a0", "X", "c0", 1⟩, ⟨"a1", "A B", "c1", 2⟩, ⟨"a2", "A  B", "c2", 3⟩],
          [sampleSecret]⟩ : DB) = true ∧
      to_url "A B" = "A_B" ∧ to_url "X" ≠ "A_B") ∧
    handle_api_request
        ⟨[⟨"a0", "X", "c0", 1⟩, ⟨"a1", "A B", "c1", 2⟩, ⟨"a2", "A  B", "c2", 3⟩],
          [sampleSecret]⟩ "f" 0 ⟨"s3cr3t", .GetArticle "A_B"⟩ =
      ⟨⟨[⟨"a0", "X", "c0", 1⟩, ⟨"a1", "A B", "c1", 2⟩, ⟨"a2", "A  B", "c2", 3⟩],
          [sampleSecret]⟩,
       [.selectSecret "s3cr3t", .selectIdTitle, .selectById "a1"],
       .ok (.serializedArticle ⟨"a1", "A B", "c1", 2⟩)⟩ :=
  ⟨⟨by decide, by decide, by decide⟩,
   get_by_slug_first_match [⟨"a0", "X", "c0", 1⟩] [⟨"a2", "A  B", "c2", 3⟩]
      ⟨"a1", "A B", "c1", 2⟩ [sampleSecret] "f" 0 "s3cr3t" "A_B"
      (by decide) (by decide) (by decide) (by decide)⟩

/-- C10 — Permalinks round-trip: for any article `a` present in a store whose
ids are pairwise distinct (the `id TEXT PRIMARY KEY` invariant), resolving the
slug `Article::url a = to_url a.title` used to build `a`'s permalink succeeds —
the resolution scan finds a first store-order match — and the permalink route
renders a fetched row whose derived slug equals `to_url a.title`; the
not-found branch is never taken for such a slug. -/
theorem permalink_round_trip (db : DB) (a : Article)
    (hnodup : (db.articles.map (fun x => x.id)).Nodup)
    (ha : a ∈ db.articles) :
    (db.articles.find? (fun r => to_url r.title == a.url)).isSome = true ∧
    ∃ b, get_article db a.url = .articlePage b ∧ to_url b.title = a.url := by
  have hsome : (db.articles.find? (fun r => to_url r.title == a.url)).isSome :=
    List.find?_isSome.mpr ⟨a, ha, beq_iff_eq.mpr rfl⟩
  obtain ⟨r, hr⟩ := Option.isSome_iff_exists.mp hsome
  have hp := List.find?_some hr
  have hrslug : to_url r.title = a.url := by simpa using hp
  have hrmem : r ∈ db.articles := List.mem_of_find?_eq_some hr
  have hfetch : db.articles.find? (fun x => x.id == r.id) = some r :=
    find?_id_of_nodup db.articles r hnodup hrmem
  refine ⟨by simp [hsome], r, ?_, hrslug⟩
  simp [get_article, hr, hfetch]

theorem permalink_round_trip_witness :
    ((sampleDB.articles.map (fun x => x.id)).Nodup ∧ sampleArticle ∈ sampleDB.articles) ∧
    ∃ b, get_article sampleDB sampleArticle.url = .articlePage b ∧
      to_url b.title = sampleArticle.url :=
  ⟨⟨by decide, by decide⟩,
   (permalink_round_trip sampleDB sampleArticle (by decide) (by decide)).2⟩
